import Mathlib

/-!
Verification of the retrieval-and-extractive-synthesis engine of the
Personal-Assistant repository against its natural-language specification.

The development shallowly embeds the Python source:

* `src/ffm_flask2.py` — sentence splitting (`_sentences`), the lexical
  regex cues (`_IMMEDIATE_RE`, `_DOSE_RE`, `_ROUTE_RE`, `_CRITERIA_RE`,
  `_CAUSES_RE`, `_COMP_RE`, `_FOLLOW_RE`), sentence scoring
  (`_score_sentence`), categorisation (`_categorise`), answer assembly
  (`_pick_sentences`, `_render_answer`) and the `/answer` route's
  empty-result handling;
* `src/app.py` — document scoring (`_score_doc`) and context assembly
  (`build_prompt`);
* `src/scripts/build_index.py` — chunking (`chunk_text`) and index
  ingestion (`ingest`).

Strings are modelled as `List Char`; Python's unbounded `int` as `Int`
(`Nat` where the source value is a count).  Python-level exceptions are
modelled with `Except PyErr`.  The regular expressions of the source are
small word-boundary alternations; each is embedded as an executable
matcher with Python's `\b` semantics (a word character is `[a-zA-Z0-9_]`,
and `re.search` scans every start position).  `str.lower`, `str.strip`
and the `\s` class are embedded at their ASCII meaning, which coincides
with Python on every input used below.
-/

/-- Python regex word character: `[a-zA-Z0-9_]`. -/
def isWordChar (c : Char) : Bool :=
  ('a' ≤ c && c ≤ 'z') || ('A' ≤ c && c ≤ 'Z') || ('0' ≤ c && c ≤ '9') || c == '_'

/-- ASCII digit. -/
def isDigitCh (c : Char) : Bool := '0' ≤ c && c ≤ '9'

/-- Python's whitespace class `\s` (ASCII part): space, tab, newline,
carriage return, vertical tab, form feed. -/
def isPySpace (c : Char) : Bool :=
  c == ' ' || c == '\t' || c == '\n' || c == '\r' || c == '\x0b' || c == '\x0c'

/-- `str.lower()` (ASCII). -/
def pyLower (cs : List Char) : List Char := cs.map Char.toLower

/-- `str.strip()`: drop whitespace from both ends. -/
def pyStrip (cs : List Char) : List Char :=
  ((cs.dropWhile isPySpace).reverse.dropWhile isPySpace).reverse

/-- Python's substring test `w in hay`. -/
def containsSub (hay w : List Char) : Bool :=
  match hay with
  | [] => w.isPrefixOf ([] : List Char)
  | _ :: t => w.isPrefixOf hay || containsSub t w

/-- One step of `re.search`: no char before the current position (`none`)
or that char. -/
def nonWordBefore (prev : Option Char) : Bool :=
  match prev with
  | none => true
  | some c => !isWordChar c

/-- Trailing `\b` after a pattern ending in a word character: end of input
or a non-word character next. -/
def nonWordAfter (rest : List Char) : Bool :=
  match rest with
  | [] => true
  | c :: _ => !isWordChar c

/-- Trailing `\b` after a pattern ending in a NON-word character (such as
`%`): the next character must be a word character. -/
def wordAfterB (rest : List Char) : Bool :=
  match rest with
  | [] => false
  | c :: _ => isWordChar c

/-- `\b w \b` at the current position, for an alternative `w` that starts
and ends with word characters. -/
def plainWordAt (w : List Char) (prev : Option Char) (suf : List Char) : Bool :=
  nonWordBefore prev && w.isPrefixOf suf && nonWordAfter (suf.drop w.length)

/-- Scan of `re.search`: try the matcher at every position, carrying the
preceding character for the look-behind/boundary tests. -/
def searchFrom (m : Option Char → List Char → Bool) (prev : Option Char) :
    List Char → Bool
  | [] => m prev []
  | c :: t => m prev (c :: t) || searchFrom m (some c) t

/-- `re.search(pattern, s)` as a Boolean. -/
def reSearch (m : Option Char → List Char → Bool) (cs : List Char) : Bool :=
  searchFrom m none cs

/-- Any of a list of plain word alternatives at the current position. -/
def anyWordAt (ws : List (List Char)) (prev : Option Char) (suf : List Char) : Bool :=
  ws.any (fun w => plainWordAt w prev suf)

/-- The plain-word alternatives of `_IMMEDIATE_RE` (all start and end in
word characters; `first[-\s]?line` and `3%` are handled separately). -/
def immWords : List (List Char) :=
  ["immediate".toList, "stat".toList, "urgent".toList, "airway".toList,
   "breathing".toList, "circulation".toList, "resus".toList, "abcde".toList,
   "adrenaline".toList, "epinephrine".toList, "calcium".toList, "insulin".toList,
   "dextrose".toList, "hyperton".toList, "magnesium".toList, "ceftriaxone".toList,
   "piperacillin".toList, "tazobactam".toList, "vancomycin".toList,
   "bolus".toList, "defibrill".toList]

/-- Separator of `first[-\s]?line`: a hyphen or one whitespace character. -/
def sepChar (c : Char) : Bool := c == '-' || isPySpace c

/-- The `first[-\s]?line` alternative of `_IMMEDIATE_RE`. -/
def firstLineAt (prev : Option Char) (suf : List Char) : Bool :=
  nonWordBefore prev && ("first".toList.isPrefixOf suf) &&
    (let r := suf.drop 5
     ("line".toList.isPrefixOf r && nonWordAfter (r.drop 4)) ||
     (match r with
      | c :: r2 => sepChar c && ("line".toList.isPrefixOf r2) && nonWordAfter (r2.drop 4)
      | [] => false))

/-- The `3%` alternative of `_IMMEDIATE_RE`: `%` is not a word character,
so the trailing `\b` demands a word character right after it. -/
def threePercentAt (prev : Option Char) (suf : List Char) : Bool :=
  nonWordBefore prev && ("3%".toList.isPrefixOf suf) && wordAfterB (suf.drop 2)

/-- `_IMMEDIATE_RE.search`, over already-lowercased text. -/
def immediate_search (cs : List Char) : Bool :=
  reSearch (fun prev suf =>
    anyWordAt immWords prev suf || firstLineAt prev suf || threePercentAt prev suf) cs

/-- Greedy `\d+`: drop the leading digit run. -/
def dropDigits : List Char → List Char
  | [] => []
  | c :: t => if isDigitCh c then dropDigits t else c :: t

/-- The unit alternation `(mcg|mg|g|mL|ml|%)\b` of `_DOSE_RE`, over
lowercased text (`mL` and `ml` coincide after lowering). -/
def doseUnitAt (suf : List Char) : Bool :=
  ("mcg".toList.isPrefixOf suf && nonWordAfter (suf.drop 3)) ||
  ("mg".toList.isPrefixOf suf && nonWordAfter (suf.drop 2)) ||
  ("g".toList.isPrefixOf suf && nonWordAfter (suf.drop 1)) ||
  ("ml".toList.isPrefixOf suf && nonWordAfter (suf.drop 2)) ||
  (match suf with
   | c :: r => c == '%' && wordAfterB r
   | [] => false)

/-- `\s?` then the unit, of `_DOSE_RE`. -/
def doseSpaceUnit (rest : List Char) : Bool :=
  doseUnitAt rest ||
  (match rest with
   | c :: r => isPySpace c && doseUnitAt r
   | [] => false)

/-- After the integer part of `_DOSE_RE`: optional `(\.\d+)?`, optional
one whitespace, then a unit. -/
def doseTailOpts (rest : List Char) : Bool :=
  doseSpaceUnit rest ||
  (match rest with
   | '.' :: r =>
     (match r with
      | d :: _ => isDigitCh d && doseSpaceUnit (dropDigits r)
      | [] => false)
   | _ => false)

/-- `_DOSE_RE` (`\b(\d+(\.\d+)?)\s?(mcg|mg|g|mL|ml|%)\b`) at one position. -/
def doseMatchAt (prev : Option Char) (suf : List Char) : Bool :=
  nonWordBefore prev &&
  (match suf with
   | c :: _ => isDigitCh c && doseTailOpts (dropDigits suf)
   | [] => false)

/-- `_DOSE_RE.search`, over already-lowercased text. -/
def dose_search (cs : List Char) : Bool := reSearch doseMatchAt cs

/-- The alternatives of `_ROUTE_RE` (`\b(iv|im|po|neb|infus|bolus)\b`).
The regex object is defined in the source but the scoring line misspells
its name (`__ROUTE_RE`), see `score_sentence`. -/
def routeWords : List (List Char) :=
  ["iv".toList, "im".toList, "po".toList, "neb".toList, "infus".toList,
   "bolus".toList]

/-- `_ROUTE_RE.search`, over already-lowercased text. -/
def route_search (cs : List Char) : Bool :=
  reSearch (fun prev suf => anyWordAt routeWords prev suf) cs

/-- The alternatives of `_CRITERIA_RE`
(`\b(definition|criteria|diagnos|meets|signs?|symptoms?)\b`). -/
def criteriaWords : List (List Char) :=
  ["definition".toList, "criteria".toList, "diagnos".toList, "meets".toList,
   "signs".toList, "sign".toList, "symptoms".toList, "symptom".toList]

/-- `_CRITERIA_RE.search`, over already-lowercased text. -/
def criteria_search (cs : List Char) : Bool :=
  reSearch (fun prev suf => anyWordAt criteriaWords prev suf) cs

/-- The alternatives of `_CAUSES_RE`
(`\b(causes?|triggers?|aetiolog|etiolog|risk)\b`). -/
def causesWords : List (List Char) :=
  ["causes".toList, "cause".toList, "triggers".toList, "trigger".toList,
   "aetiolog".toList, "etiolog".toList, "risk".toList]

/-- `_CAUSES_RE.search`, over already-lowercased text. -/
def causes_search (cs : List Char) : Bool :=
  reSearch (fun prev suf => anyWordAt causesWords prev suf) cs

/-- The alternatives of `_COMP_RE`
(`\b(complication|shock|arrhythm|arrest|oedema|edema)\b`). -/
def compWords : List (List Char) :=
  ["complication".toList, "shock".toList, "arrhythm".toList, "arrest".toList,
   "oedema".toList, "edema".toList]

/-- `_COMP_RE.search`, over already-lowercased text. -/
def comp_search (cs : List Char) : Bool :=
  reSearch (fun prev suf => anyWordAt compWords prev suf) cs

/-- The alternatives of `_FOLLOW_RE` (`\b(monitor|observe|repeat|titrate|
admit|review|escalate|red flags?|disposition|reassess|ecg)\b`). -/
def followWords : List (List Char) :=
  ["monitor".toList, "observe".toList, "repeat".toList, "titrate".toList,
   "admit".toList, "review".toList, "escalate".toList, "red flags".toList,
   "red flag".toList, "disposition".toList, "reassess".toList, "ecg".toList]

/-- `_FOLLOW_RE.search`, over already-lowercased text. -/
def follow_search (cs : List Char) : Bool :=
  reSearch (fun prev suf => anyWordAt followWords prev suf) cs

/-- The Python exceptions the embedded code can raise. -/
inductive PyErr
  | nameError
deriving DecidableEq, Repr

/-- `_score_sentence` of `src/ffm_flask2.py` (lines 73–83).  The source
computes `score` through the `_IMMEDIATE_RE` (+8) and `_DOSE_RE` (+4)
tests and then executes `if __ROUTE_RE.search(s2): score += 3`; the name
`__ROUTE_RE` is unbound (the module defines `_ROUTE_RE`, line 66, which is
never referenced), so every call raises `NameError` at that line, before
the bullet and length bonuses.  The partial score is mirrored by the dead
let-bindings. -/
def score_sentence (s : List Char) : Except PyErr Int :=
  let s2 := pyLower s
  let sc0 : Int := 0
  let sc1 := if immediate_search s2 then sc0 + 8 else sc0
  let _sc2 := if dose_search s2 then sc1 + 4 else sc1
  Except.error PyErr.nameError

/-- `_categorise` of `src/ffm_flask2.py` (lines 85–92).  The source binds
`s2 = s.lower()` once; here `pyLower s` is written at each use (same
value).  Branch order is the source's: urgency/dose first, then
definition/criteria, then causes/complications, then follow-up cues, and
the fallback is the string `"Definition/Criteria"`. -/
def categorise (s : List Char) : String :=
  if immediate_search (pyLower s) || dose_search (pyLower s) then "Immediate"
  else if criteria_search (pyLower s) then "Definition/Criteria"
  else if causes_search (pyLower s) || comp_search (pyLower s) then "Causes/Complications"
  else if follow_search (pyLower s) then "Ongoing"
  else "Definition/Criteria"

/-- `re.sub(r"\r\n?", "\n", txt)`: normalise CRLF and lone CR to LF. -/
def normNewlines : List Char → List Char
  | [] => []
  | '\r' :: '\n' :: t => '\n' :: normNewlines t
  | '\r' :: t => '\n' :: normNewlines t
  | c :: t => c :: normNewlines t

/-- Space or tab (the class `[ \t]`). -/
def isST (c : Char) : Bool := c == ' ' || c == '\t'

/-- Scanner of `re.sub(r"[ \t]+", " ", t)`: `inRun` records whether the
previous character belonged to a space/tab run already replaced. -/
def collapseSTAux (inRun : Bool) : List Char → List Char
  | [] => []
  | c :: t =>
    if isST c then
      (if inRun then collapseSTAux true t else ' ' :: collapseSTAux true t)
    else c :: collapseSTAux false t

/-- `re.sub(r"[ \t]+", " ", t)`: replace each space/tab run by one space. -/
def collapseST (cs : List Char) : List Char := collapseSTAux false cs

/-- `t.split("\n")`, keeping empty pieces (the source filters them after). -/
def splitLinesAux (cur : List Char) : List Char → List (List Char)
  | [] => [cur.reverse]
  | '\n' :: t => cur.reverse :: splitLinesAux [] t
  | c :: t => splitLinesAux (c :: cur) t

/-- `re.match(r"^[-•\d\)\(•]\s", ln)` as a Boolean: a bullet or numbered
line of `_sentences`. -/
def bulletLine (ln : List Char) : Bool :=
  match ln with
  | c :: d :: _ =>
    (c == '-' || c == '•' || isDigitCh c || c == ')' || c == '(') && isPySpace d
  | _ => false

/-- `.`, `?` or `!` — the look-behind class of the sentence splitter
`re.split(r"(?<=[\.\?\!])\s+", ln)` of `_sentences`. -/
def isPunctCh (c : Char) : Bool := c == '.' || c == '?' || c == '!'

/-- Scanner of `re.split(r"(?<=[\.\?\!])\s+", ln)`: `mode` is true inside
a whitespace separator run, `prevPunct` whether the previously consumed
character was `.`, `?` or `!`, `cur` the current piece reversed. -/
def splitPunctAux (mode : Bool) (prevPunct : Bool) (cur : List Char) :
    List Char → List (List Char)
  | [] => if mode then [[]] else [cur.reverse]
  | c :: t =>
    if mode then
      (if isPySpace c then splitPunctAux true false [] t
       else splitPunctAux false (isPunctCh c) [c] t)
    else
      (if isPySpace c && prevPunct then cur.reverse :: splitPunctAux true false [] t
       else splitPunctAux false (isPunctCh c) (c :: cur) t)

/-- `re.split(r"(?<=[\.\?\!])\s+", ln)`: split at whitespace runs that
directly follow sentence punctuation. -/
def splitPunct (cs : List Char) : List (List Char) :=
  splitPunctAux false false [] cs

/-- The per-line body of `_sentences`: a bullet line is kept atomic,
other lines are split at sentence punctuation, stripped, empties
dropped. -/
def sentencesOut (lines : List (List Char)) : List (List Char) :=
  lines.flatMap (fun ln =>
    if bulletLine ln then [ln]
    else ((splitPunct ln).map pyStrip).filter (fun p => !p.isEmpty))

/-- `_sentences` of `src/ffm_flask2.py` (lines 40–57): normalise newlines,
collapse spaces/tabs, split into stripped non-blank lines, cut each line
into sentences/bullets, then keep pieces of length 10 to 500 (clipped at
500, a no-op after the filter, kept to mirror `s[:500]`). -/
def sentences (txt : List Char) : List (List Char) :=
  if txt.isEmpty then []
  else
    let t := collapseST (normNewlines txt)
    let lines := (splitLinesAux [] t).filterMap (fun l =>
      let l2 := pyStrip l
      if l2.isEmpty then none else some l2)
    let out := sentencesOut lines
    (out.filter (fun s => 10 ≤ s.length && s.length ≤ 500)).map (fun s => s.take 500)

/-- One row of the `guidelines` table as `_pick_sentences` consumes it:
the fields the code reads with `row.get(...)`.  `published` is modelled
as the ISO string the citation branch would produce (`None` when the
column is null). -/
structure Row where
  id : Option String
  title : String
  org : String
  url : String
  published : Option String
  text : String

/-- A scored candidate sentence of `_pick_sentences`
(`{"score": ..., "sent": ..., "row": ...}`). -/
structure Cand where
  score : Int
  sent : List Char
  row : Row

/-- A source/citation record of `_pick_sentences` (lines 146–152). -/
structure Citation where
  title : String
  org : String
  published : String
  url : String
deriving DecidableEq, Repr

/-- Lowercase letter or digit — the token class `[a-z0-9]` of the query
tokenisers. -/
def isAlnumLower (c : Char) : Bool := ('a' ≤ c && c ≤ 'z') || isDigitCh c

/-- Maximal `[a-z0-9]` runs, in order — `re.findall(r"[a-z0-9]+", s)`. -/
def tokenRunsAux (cur : List Char) : List Char → List (List Char)
  | [] => if cur.isEmpty then [] else [cur.reverse]
  | c :: t =>
    if isAlnumLower c then tokenRunsAux (c :: cur) t
    else if cur.isEmpty then tokenRunsAux [] t
    else cur.reverse :: tokenRunsAux [] t

/-- `re.findall(r"[a-z0-9]+", s)`. -/
def tokenRuns (cs : List Char) : List (List Char) := tokenRunsAux [] cs

/-- `re.findall(r"[a-z0-9]{3,}", q.lower())`: maximal alphanumeric runs
of length at least 3 (a maximal run shorter than 3 yields no match). -/
def qTokens3 (q : List Char) : List (List Char) :=
  (tokenRuns (pyLower q)).filter (fun t => 3 ≤ t.length)

/-- The query-token boost of `_pick_sentences` (lines 124–126): one point
per distinct query token that is a substring of the lowercased sentence.
The source iterates a Python `set` (unspecified order); the sum is
order-independent, so any duplicate-free enumeration gives the same
value. -/
def queryBoost (q s : List Char) : Int :=
  (((qTokens3 q).dedup).filter (fun tok => containsSub (pyLower s) tok)).length

/-- The truthiness test `if rid and ...` on `row.get("id")`: `None` and
the empty string are falsy. -/
def rowTruthyId (r : Row) : Option String :=
  match r.id with
  | none => none
  | some s => if s.isEmpty then none else some s

/-- The citation record built at lines 146–152 of `src/ffm_flask2.py`
(the `published` field is the stored ISO string, or `""` when null; the
`datetime.isoformat()` branch is subsumed by storing the ISO string in
`Row.published`). -/
def rowCitation (r : Row) : Citation :=
  { title := r.title, org := r.org, published := r.published.getD "", url := r.url }

/-- The candidate-collection loop of `_pick_sentences` (lines 119–127):
for each row, for each extracted sentence, score it (which raises, see
`score_sentence`) and add the query boost.  `Except.foldlM` propagates
the first raised exception exactly as the Python loop does. -/
def collectCands (rows : List Row) (q : List Char) : Except PyErr (List Cand) :=
  rows.foldlM (fun acc r =>
    (sentences r.text.toList).foldlM (fun acc2 s => do
      let sc ← score_sentence s
      pure (acc2 ++ [⟨sc + queryBoost q s, s, r⟩])) acc) []

/-- The per-category slot table `{"Definition/Criteria": 3,
"Causes/Complications": 3, "Immediate": 6, "Ongoing": 4}`. -/
def slotFor (cat : String) : Nat :=
  if cat = "Definition/Criteria" then 3
  else if cat = "Causes/Complications" then 3
  else if cat = "Immediate" then 6
  else 4

/-- The `chosen` dict of `_pick_sentences`, one list per category. -/
structure Chosen where
  defn : List (List Char)
  causes : List (List Char)
  imm : List (List Char)
  ongoing : List (List Char)

/-- `chosen[cat]`. -/
def getCat (ch : Chosen) (cat : String) : List (List Char) :=
  if cat = "Definition/Criteria" then ch.defn
  else if cat = "Causes/Complications" then ch.causes
  else if cat = "Immediate" then ch.imm
  else ch.ongoing

/-- `chosen[cat].append(s)`. -/
def addCat (ch : Chosen) (cat : String) (s : List Char) : Chosen :=
  if cat = "Definition/Criteria" then { ch with defn := ch.defn ++ [s] }
  else if cat = "Causes/Complications" then { ch with causes := ch.causes ++ [s] }
  else if cat = "Immediate" then { ch with imm := ch.imm ++ [s] }
  else { ch with ongoing := ch.ongoing ++ [s] }

/-- The selection loop of `_pick_sentences` (lines 139–152): walk the
top candidates in order; a candidate whose category still has a free slot
is appended there, and its row's citation is appended the first time a
truthy row id is seen (`used_row_ids`). -/
def selectLoop : List Cand → Chosen → List Citation → List String →
    Chosen × List Citation
  | [], ch, srcs, _ => (ch, srcs)
  | c :: rest, ch, srcs, used =>
    let cat := categorise c.sent
    if (getCat ch cat).length < slotFor cat then
      let ch2 := addCat ch cat c.sent
      match rowTruthyId c.row with
      | some rid =>
        if used.contains rid then selectLoop rest ch2 srcs used
        else selectLoop rest ch2 (srcs ++ [rowCitation c.row]) (used ++ [rid])
      | none => selectLoop rest ch2 srcs used
    else selectLoop rest ch srcs used

/-- Python word character class `\w` (ASCII part), used by
`_clean_for_html`'s hyphen join. -/
def cleanHyphenAux : Nat → List Char → List Char
  | 0, cs => cs
  | _ + 1, [] => []
  | fuel + 1, c :: t =>
    if isWordChar c then
      match t with
      | '-' :: u =>
        let v := u.dropWhile isPySpace
        if v.length < u.length then
          (match v with
           | w2 :: rest2 =>
             if isWordChar w2 then c :: w2 :: cleanHyphenAux fuel rest2
             else c :: cleanHyphenAux fuel t
           | [] => c :: cleanHyphenAux fuel t)
        else c :: cleanHyphenAux fuel t
      | _ => c :: cleanHyphenAux fuel t
    else c :: cleanHyphenAux fuel t

/-- `re.sub(r"(\w)-\s+(\w)", r"\1\2", s)`: join hyphen-linebreak splits.
The fuel is the input length; every step consumes at least one
character, so it never runs out. -/
def cleanHyphen (cs : List Char) : List Char := cleanHyphenAux cs.length cs

/-- `html.escape` (with quoting) of one character. -/
def htmlEscapeChar (c : Char) : List Char :=
  if c == '&' then "&amp;".toList
  else if c == '<' then "&lt;".toList
  else if c == '>' then "&gt;".toList
  else if c == '"' then "&quot;".toList
  else if c == '\x27' then "&#x27;".toList
  else [c]

/-- `_clean_for_html` of `src/ffm_flask2.py` (lines 94–98). -/
def clean_for_html (s : List Char) : String :=
  String.mk ((pyStrip (collapseST (cleanHyphen s))).flatMap htmlEscapeChar)

/-- The user-facing empty-result marker of `src/ffm_flask2.py` (it appears
at line 115 in `_render_answer` and at line 198 in the `/answer` route). -/
def noMatchHtml : String := "<p>No matches found in your knowledge base.</p>"

/-- The section titles of `_render_answer`. -/
def titleFor (cat : String) : String :=
  if cat = "Definition/Criteria" then "What it is & how to recognise it"
  else if cat = "Causes/Complications" then "Common causes & complications"
  else if cat = "Immediate" then "Immediate management (first steps & doses)"
  else "Monitoring / follow-up"

/-- One section of `_render_answer`: skipped when empty, else a `<h4>`
title and a `<ul>` of cleaned items. -/
def renderSection (key : String) (items : List (List Char)) : String :=
  if items.isEmpty then ""
  else
    "<h4 style='margin:8px 0 6px'>" ++ titleFor key ++ "</h4>" ++
    "<ul style='margin:6px 0 10px 18px'>" ++
    String.join (items.map (fun x => "<li>" ++ clean_for_html x ++ "</li>")) ++
    "</ul>"

/-- `_render_answer` of `src/ffm_flask2.py` (lines 100–115): the four
sections in fixed order; if every section is empty the result is the
single no-match marker instead. -/
def render_answer (ch : Chosen) : String :=
  let body := renderSection "Definition/Criteria" ch.defn ++
    renderSection "Causes/Complications" ch.causes ++
    renderSection "Immediate" ch.imm ++
    renderSection "Ongoing" ch.ongoing
  if body.isEmpty then noMatchHtml else body

/-- Stable descending insertion: `x` (later in original order) passes
over every element not strictly below it, so equal elements keep their
original relative order. -/
def insertByGt (gtb : α → α → Bool) (x : α) : List α → List α
  | [] => [x]
  | y :: ys => if gtb x y then x :: y :: ys else y :: insertByGt gtb x ys

/-- Python's stable `list.sort(..., reverse=True)`: sorted descending
under the strict comparison `gtb`, ties keeping first-seen order. -/
def sortByDesc (gtb : α → α → Bool) (l : List α) : List α :=
  l.foldl (fun acc x => insertByGt gtb x acc) []

/-- `_pick_sentences` of `src/ffm_flask2.py` (lines 117–154): collect and
score candidates (raising as the source does), stable-sort by score
descending (`list.sort` is stable; `reverse=True` keeps first-seen order
on ties), keep the top 60, fill the four sections with 3/3/6/4 slots, and
return the rendered answer plus the first 8 citations. -/
def pick_sentences (rows : List Row) (q : String) :
    Except PyErr (String × List Citation) := do
  let cand ← collectCands rows q.toList
  let sorted := sortByDesc (fun a b => decide (b.score < a.score)) cand
  let top := sorted.take 60
  let (ch, srcs) := selectLoop top ⟨[], [], [], []⟩ [] []
  pure (render_answer ch, srcs.take 8)

/-- The `/answer` route of `src/ffm_flask2.py` (lines 196–201) after
input validation and the Supabase search: an empty row set returns the
no-match marker with no sources as a success; otherwise the result of
`_pick_sentences` is returned as a success. -/
def answer_core (rows : List Row) (q : String) :
    Except PyErr (String × List Citation) :=
  if rows.isEmpty then Except.ok (noMatchHtml, [])
  else pick_sentences rows q

/-- Fuelled scanner of Python's `str.count` (non-overlapping, leftmost):
on a prefix match, skip the needle and count one; otherwise advance one
character.  Each step consumes at least one character, so fuel
`hay.length + 1` never runs out for a non-empty needle. -/
def countOccAux (needle : List Char) : Nat → List Char → Nat
  | 0, _ => 0
  | fuel + 1, hay =>
    if needle.isPrefixOf hay then 1 + countOccAux needle fuel (hay.drop needle.length)
    else
      match hay with
      | [] => 0
      | _ :: t => countOccAux needle fuel t

/-- `hay.count(needle)` (Python `str.count`): the number of
non-overlapping occurrences, scanning from the left; an empty needle
counts `len(hay) + 1` as in Python. -/
def countOcc (hay needle : List Char) : Nat :=
  if needle.isEmpty then hay.length + 1 else countOccAux needle (hay.length + 1) hay

/-- The guideline-cue tuple of `_score_doc` in `src/app.py`
(lines 139–142). -/
def cueWords : List (List Char) :=
  ["dose".toList, " mg".toList, "mcg".toList, " iv".toList, "im ".toList,
   "neb".toList, "bolus".toList, "criteria".toList, "indication".toList,
   "contraindication".toList, "guideline".toList]

/-- `any(w in tl for w in cueWords)` of `_score_doc`. -/
def cue_hit (tl : List Char) : Bool := cueWords.any (fun w => containsSub tl w)

/-- `_score_doc` of `src/app.py` (lines 128–144): for each query token of
length at least 3, three points per occurrence in the lowercased text,
plus a flat five-point bonus when any guideline cue is a substring.
Empty text scores 0. -/
def score_doc (q_tokens : List (List Char)) (text : List Char) : Int :=
  if text.isEmpty then 0
  else
    let tl := pyLower text
    let base := q_tokens.foldl
      (fun sc t => if t.length < 3 then sc else sc + (countOcc tl t : Int) * 3) 0
    if cue_hit tl then base + 5 else base

/-- The score the query pipeline of `src/app.py` assigns to a corpus
document together with its publication metadata: `build_prompt`
(lines 147–157) calls `_score_doc(q_tokens, text[:8000])` and nothing
else — the in-memory corpus maps paths to text only, so a publication
date, known or unknown, never reaches the scorer. -/
def score_doc_meta (q_tokens : List (List Char)) (text : List Char)
    (_published : Option Int) : Int :=
  score_doc q_tokens (text.take 8000)

/-- Strict lexicographic `<` on char lists (Python string comparison by
code point), used by the tuple sort of `build_prompt`. -/
def lexLtCh : List Char → List Char → Bool
  | [], [] => false
  | [], _ :: _ => true
  | _ :: _, [] => false
  | x :: xs, y :: ys => if x < y then true else if y < x then false else lexLtCh xs ys

/-- Strict `>` on the `(score, path, text)` tuples that
`build_prompt` sorts with `scored.sort(reverse=True)` (tuple comparison:
score, then path, then text). -/
def tripleGt (a b : Int × List Char × List Char) : Bool :=
  if b.1 < a.1 then true
  else if a.1 < b.1 then false
  else if lexLtCh b.2.1 a.2.1 then true
  else if lexLtCh a.2.1 b.2.1 then false
  else lexLtCh b.2.2 a.2.2

/-- `pathlib.Path(p).name`: the part after the last `/`. -/
def pathName (p : List Char) : List Char :=
  ((p.reverse.takeWhile (fun c => c != '/')).reverse)

/-- One context block of `build_prompt`:
`f"[Source: {Path(p).name}]\n{text}"`. -/
def ctxBlock (spt : Int × List Char × List Char) : String :=
  "[Source: " ++ String.mk (pathName spt.2.1) ++ "]" ++ "\n" ++ String.mk spt.2.2

/-- The fallback context marker of `build_prompt`
(`src/app.py` lines 166–170). -/
def noLocalContext : String :=
  "(no local documents matched closely; answer from standard emergency practice, state uncertainty if unsure)."

/-- One iteration of the scoring loop of `build_prompt` (`src/app.py`
lines 151–156): score a corpus entry `(path, text)` on its first 8000
characters and keep it (clipped to 4000 characters) only when the score
is positive. -/
def scoreEntry (q_tokens : List (List Char)) (pt : List Char × List Char) :
    Option (Int × List Char × List Char) :=
  let s := score_doc q_tokens (pt.2.take 8000)
  if 0 < s then some (s, pt.1, pt.2.take 4000) else none

/-- The ranked-context assembly of `build_prompt`: the scored entries,
sorted descending, clipped to five; the fallback marker when none scored
above zero. -/
def build_context (corpus : List (List Char × List Char))
    (q_tokens : List (List Char)) : String :=
  let top := (sortByDesc tripleGt (corpus.filterMap (scoreEntry q_tokens))).take 5
  if top.isEmpty then noLocalContext
  else String.intercalate "\n\n---\n\n" (top.map ctxBlock)

/-- The look-behind class `[\\.!?]` of the sentence-split regex of
`chunk_text` in `src/scripts/build_index.py` (line 34).  The pattern in
the source is the DOUBLE-ESCAPED raw string `r"(?<=[\\.!?])\\s+"`: the
class holds a literal backslash, `.`, `!` and `?`, and the body `\\s+`
matches a literal backslash followed by one or more letters `s` — not
whitespace. -/
def isClsCh (c : Char) : Bool := c == '\\' || c == '.' || c == '!' || c == '?'

/-- Scanner of `re.split(r"(?<=[\\.!?])\\s+", txt)` as the source wrote
it: a separator is a literal backslash (preceded by one of `\\`, `.`,
`!`, `?`) followed by a maximal run of at least one `s`.  `mode` is true
inside the `s` run, `prevCls` whether the previously consumed character
is in the look-behind class, `cur` the current piece reversed. -/
def bsplitAux (mode : Bool) (prevCls : Bool) (cur : List Char) :
    List Char → List (List Char)
  | [] => if mode then [[]] else [cur.reverse]
  | c :: t =>
    if mode then
      (if c == 's' then bsplitAux true false [] t
       else bsplitAux false (isClsCh c) [c] t)
    else
      (if c == '\\' && prevCls && (match t with | 's' :: _ => true | _ => false) then
        cur.reverse :: bsplitAux true false [] t
       else bsplitAux false (isClsCh c) (c :: cur) t)

/-- `re.split(r"(?<=[\\.!?])\\s+", txt)` of `chunk_text`, faithful to the
double-escaped pattern: ordinary text (no backslash) is never split. -/
def bsplit (cs : List Char) : List (List Char) := bsplitAux false false [] cs

/-- `" ".join(xs)`. -/
def joinSpace (xs : List (List Char)) : List Char := List.intercalate [' '] xs

/-- The accumulation loop of `chunk_text` (`src/scripts/build_index.py`
lines 35–44): `out` the finished chunks, `cur` the sentences of the open
chunk, `curLen` the sum of their lengths (the joining spaces are NOT
counted, as in the source). -/
def chunkLoop (maxChars : Nat) (out : List (List Char)) (cur : List (List Char))
    (curLen : Nat) : List (List Char) → List (List Char)
  | [] => if cur.isEmpty then out else out ++ [joinSpace cur]
  | s :: rest =>
    if !cur.isEmpty && maxChars < curLen + s.length then
      chunkLoop maxChars (out ++ [joinSpace cur]) [s] s.length rest
    else chunkLoop maxChars out (cur ++ [s]) (curLen + s.length) rest

/-- `chunk_text` of `src/scripts/build_index.py` (lines 33–45): strip,
split by the (double-escaped) sentence regex, then greedily accumulate
sentences into chunks of at most `max_chars` summed sentence length. -/
def chunk_text (txt : List Char) (maxChars : Nat) : List (List Char) :=
  chunkLoop maxChars [] [] 0 (bsplit (pyStrip txt))

/-- A hexadecimal digit. -/
def hexDigit (n : Nat) : Char :=
  if n < 10 then Char.ofNat ('0'.toNat + n) else Char.ofNat ('a'.toNat + n - 10)

/-- Stand-in for `hashlib.sha1(title.encode("utf-8")).hexdigest()[:8]` of
`ingest` (`src/scripts/build_index.py` line 76): an 8-hex-character
digest that is a deterministic function of the title alone.  The
ingestion logic uses no property of SHA-1 beyond determinism and
title-dependence, so the digest is modelled by a simple 32-bit polynomial
hash rather than bit-for-bit SHA-1. -/
def basehash8 (title : String) : String :=
  let h := title.toList.foldl (fun a c => (a * 31 + c.toNat) % 4294967296) 7
  String.mk ((List.range 8).map (fun i => hexDigit (h / 16 ^ (7 - i) % 16)))

/-- One document of the Whoosh index as `ingest` writes it
(`w.add_document(chunk_id=..., title=..., org=..., published=..., text=...)`).
`published` is the resolved timestamp (an abstract instant). -/
structure IndexRec where
  cid : String
  title : String
  org : String
  published : Int
  text : List Char
deriving DecidableEq, Repr

/-- `ingest` of `src/scripts/build_index.py` (lines 69–82) acting on the
index modelled as the list of stored documents.  `published` is the
already-parsed publication timestamp (`none` when the `published` string
is empty or `datetime.fromisoformat` raises) and `now` the value of
`datetime.utcnow()`: the source stores `now` whenever `published` is
absent or malformed.  Whoosh's `writer.add_document` appends a new
document unconditionally — it does not replace an existing document with
the same unique `chunk_id` (only `update_document` does) — so ingestion
always appends one record per chunk. -/
def ingest (store : List IndexRec) (title org : String) (published : Option Int)
    (now : Int) (txt : List Char) : List IndexRec :=
  let dt := published.getD now
  let chunks := chunk_text txt 2000
  store ++ chunks.enum.map (fun ic =>
    { cid := basehash8 title ++ ":" ++ toString ic.1,
      title := title, org := org, published := dt, text := ic.2 })

/-- The recency behaviour the specification claims for the ranking score:
some positive maximum bonus `B` and positive maximum age `A` such that a
document published now always scores exactly `B` more than the same
document published a full maximum age earlier (linear decay from the
maximum `B` at age zero to zero at age `A`). -/
def RecencyClaim : Prop :=
  ∃ B A : Int, 0 < B ∧ 0 < A ∧ ∀ toks text (now : Int),
    score_doc_meta toks text (some now) - score_doc_meta toks text (some (now - A)) = B

/-- C1.  The claim says `_score_sentence` evaluates without raising and
returns an integer for every sentence, the route-pattern bonus branch
included.  In the code the route branch reads `__ROUTE_RE.search(s2)`
(line 78 of `src/ffm_flask2.py`) but the module defines `_ROUTE_RE`
(line 66), so the name is unbound and every call raises `NameError`
before any score is returned. -/
theorem score_sentence_always_raises (s : List Char) :
    score_sentence s = Except.error PyErr.nameError := rfl

/-- C2 (counterexample).  "bolus causes shock" matches both the causal
vocabulary (`causes`) and the urgency cues (`bolus`), yet `_categorise`
files it as "Immediate", not "Causes/Complications" as the claim's
priority order demands; and "the weather is pleasant" matches no pattern
at all, yet is filed as "Definition/Criteria", not the claimed default
"Ongoing Care". -/
theorem categorise_not_as_claimed :
    (causes_search (pyLower ("bolus causes shock".toList)) = true
      ∧ immediate_search (pyLower ("bolus causes shock".toList)) = true
      ∧ categorise ("bolus causes shock".toList) ≠ "Causes/Complications")
  ∧ (immediate_search (pyLower ("the weather is pleasant".toList)) = false
      ∧ dose_search (pyLower ("the weather is pleasant".toList)) = false
      ∧ criteria_search (pyLower ("the weather is pleasant".toList)) = false
      ∧ causes_search (pyLower ("the weather is pleasant".toList)) = false
      ∧ comp_search (pyLower ("the weather is pleasant".toList)) = false
      ∧ follow_search (pyLower ("the weather is pleasant".toList)) = false
      ∧ categorise ("the weather is pleasant".toList) ≠ "Ongoing") := by
  decide

/-- C2 (amended).  `_categorise` assigns exactly one category by this
priority order: urgency/dosing cues first ("Immediate"), then
definition/criteria vocabulary, then causal/complication vocabulary,
then follow-up cues ("Ongoing"), and a sentence matching no pattern
defaults to "Definition/Criteria" — so a sentence matching both causal
vocabulary and urgency/dosing cues is assigned "Immediate". -/
theorem categorise_priority :
    (∀ s, (immediate_search (pyLower s) || dose_search (pyLower s)) = true →
        categorise s = "Immediate")
  ∧ (∀ s, (immediate_search (pyLower s) || dose_search (pyLower s)) = false →
        criteria_search (pyLower s) = true → categorise s = "Definition/Criteria")
  ∧ (∀ s, (immediate_search (pyLower s) || dose_search (pyLower s)) = false →
        criteria_search (pyLower s) = false →
        (causes_search (pyLower s) || comp_search (pyLower s)) = true →
        categorise s = "Causes/Complications")
  ∧ (∀ s, (immediate_search (pyLower s) || dose_search (pyLower s)) = false →
        criteria_search (pyLower s) = false →
        (causes_search (pyLower s) || comp_search (pyLower s)) = false →
        follow_search (pyLower s) = true → categorise s = "Ongoing")
  ∧ (∀ s, (immediate_search (pyLower s) || dose_search (pyLower s)) = false →
        criteria_search (pyLower s) = false →
        (causes_search (pyLower s) || comp_search (pyLower s)) = false →
        follow_search (pyLower s) = false → categorise s = "Definition/Criteria")
  ∧ (∀ s, categorise s = "Immediate" ∨ categorise s = "Definition/Criteria"
        ∨ categorise s = "Causes/Complications" ∨ categorise s = "Ongoing") := by
  refine ⟨fun s h => ?_, fun s h1 h2 => ?_, fun s h1 h2 h3 => ?_,
    fun s h1 h2 h3 h4 => ?_, fun s h1 h2 h3 h4 => ?_, fun s => ?_⟩
  · simp [categorise, h]
  · simp [categorise, h1, h2]
  · simp [categorise, h1, h2, h3]
  · simp [categorise, h1, h2, h3, h4]
  · simp [categorise, h1, h2, h3, h4]
  · unfold categorise
    split
    · exact Or.inl rfl
    · split
      · exact Or.inr (Or.inl rfl)
      · split
        · exact Or.inr (Or.inr (Or.inl rfl))
        · split
          · exact Or.inr (Or.inr (Or.inr rfl))
          · exact Or.inr (Or.inl rfl)

/-- C2 (witness for the amended claim): a sentence with an urgency cue is
filed as "Immediate". -/
theorem categorise_priority_witness :
    categorise ("give iv bolus now".toList) = "Immediate" :=
  categorise_priority.1 _ (by decide)

/-- C3 (counterexample).  Ingesting the same content twice does not leave
the index in the state of ingesting it once: a second `ingest` of the
identical title/org/date/text appends a second full set of chunk records
(`add_document` never deduplicates), so the observable store differs. -/
theorem ingest_not_idempotent :
    ingest (ingest [] "Hyperkalaemia Guideline" "HAX" none 0
        ("Causes include renal failure.".toList))
      "Hyperkalaemia Guideline" "HAX" none 0 ("Causes include renal failure.".toList)
    ≠ ingest [] "Hyperkalaemia Guideline" "HAX" none 0
        ("Causes include renal failure.".toList) := by
  decide

/-- C3 (amended).  Ingestion is not idempotent: every `ingest` of the
same byte content appends a fresh full set of chunk records, so the
stored record count after ingesting identical input twice exceeds the
count after one ingestion by exactly the chunk count (the `chunk_id`
values repeat — they derive from the title, not a content hash — but
Whoosh's `add_document` stores duplicates regardless). -/
theorem ingest_twice_duplicates (store : List IndexRec) (title org : String)
    (published : Option Int) (now : Int) (txt : List Char) :
    (ingest (ingest store title org published now txt) title org published now txt).length
      = store.length + 2 * (chunk_text txt 2000).length := by
  simp only [ingest, List.length_append, List.length_map, List.enum_length]
  omega

/-- C4 (counterexample).  The claimed recency profile is impossible for
the code's scoring: `score_doc_meta` ignores the publication date
entirely, so the score difference between a document published now and
the same document published a full maximum age earlier is always 0,
never a positive maximum bonus. -/
theorem no_recency_bonus : ¬ RecencyClaim := by
  rintro ⟨B, A, hB, _, h⟩
  have h0 := h [] [] 0
  simp only [score_doc_meta, sub_self] at h0
  omega

/-- C4 (amended).  The ranking score has no recency component at all:
the pipeline's per-document score is a function of the text alone
(`build_prompt` passes only `text[:8000]` to `_score_doc`), so any two
publication dates — known, unknown, recent or ancient — give the same
score.  In that degenerate sense every document's recency contribution
is zero, but no bonus decays from a maximum at "now". -/
theorem score_ignores_publication (toks : List (List Char)) (text : List Char)
    (d d' : Option Int) :
    score_doc_meta toks text d = score_doc_meta toks text d'
    ∧ score_doc_meta toks text d = score_doc toks (text.take 8000) :=
  ⟨rfl, rfl⟩

/-- C5.  The claim says every chunk respects `max_chars` except a single
oversized sentence.  The source's split pattern is the double-escaped
raw string `r"(?<=[\\.!?])\\s+"`, which matches a literal backslash
followed by letters `s` — so ordinary text is never split at sentence
boundaries at all: `"ab. ab. ab."` (three punctuation-bounded sentences
of 3 characters each, as `splitPunct`, the correct boundary rule used in
`_sentences`, shows) comes back as one unsplit chunk of length 11 even
with `max_chars = 5`. -/
theorem chunk_text_ignores_sentence_bounds :
    chunk_text ("ab. ab. ab.".toList) 5 = [("ab. ab. ab.".toList)]
    ∧ ("ab. ab. ab.".toList).length = 11
    ∧ (splitPunct ("ab. ab. ab.".toList)).map List.length = [3, 3, 3] := by
  decide

/-- C6 (counterexample).  Whitespace-only input does not yield an empty
sequence of chunks: `re.split` on the stripped empty string returns
`[""]` and the final `if cur:` test sees the non-empty list `[""]`, so
`chunk_text` returns one chunk that is itself empty — violating both
halves of the claim. -/
theorem chunk_text_whitespace_empty_chunk :
    chunk_text ("   ".toList) 1600 = [[]] := by
  decide

/-- The split of `chunk_text` always yields at least one piece
(`re.split` never returns an empty list). -/
theorem bsplitAux_ne_nil (cs : List Char) :
    ∀ mode prevCls cur, bsplitAux mode prevCls cur cs ≠ [] := by
  induction cs with
  | nil =>
    intro mode prev cur
    cases mode <;> simp [bsplitAux]
  | cons c t ih =>
    intro mode prev cur
    simp only [bsplitAux]
    split
    · split
      · exact ih _ _ _
      · exact ih _ _ _
    · split
      · simp
      · exact ih _ _ _

/-- The accumulation loop of `chunk_text` returns a non-empty chunk list
whenever the open chunk is non-empty. -/
theorem chunkLoop_ne_nil (sents : List (List Char)) :
    ∀ maxChars out cur curLen, cur ≠ [] →
      chunkLoop maxChars out cur curLen sents ≠ [] := by
  induction sents with
  | nil =>
    intro maxChars out cur curLen hcur
    simp [chunkLoop, List.isEmpty_iff, hcur]
  | cons s rest ih =>
    intro maxChars out cur curLen hcur
    simp only [chunkLoop]
    split
    · exact ih _ _ _ _ (by simp)
    · exact ih _ _ _ _ (by simp)

/-- C6 (amended).  `chunk_text` never returns an empty sequence: it
always yields at least one chunk, and on whitespace-only (or empty)
input that one chunk is the empty string, so empty chunks do occur. -/
theorem chunk_text_never_empty_sequence :
    (∀ (txt : List Char) (maxChars : Nat), chunk_text txt maxChars ≠ [])
    ∧ (∀ (txt : List Char) (maxChars : Nat), pyStrip txt = [] →
        chunk_text txt maxChars = [[]]) := by
  constructor
  · intro txt maxChars
    unfold chunk_text
    rcases hs : bsplit (pyStrip txt) with _ | ⟨s, rest⟩
    · exact absurd hs (bsplitAux_ne_nil _ _ _ _)
    · simp only [chunkLoop, List.isEmpty_nil, Bool.not_true, Bool.false_and,
        Bool.false_eq_true, if_false, List.nil_append]
      exact chunkLoop_ne_nil _ _ _ _ _ (by simp)
  · intro txt maxChars h
    unfold chunk_text
    rw [h]
    rfl

/-- C6 (witness for the amended claim): a whitespace-only input yields
exactly the one-element sequence holding the empty chunk, never `[]`. -/
theorem chunk_text_never_empty_sequence_witness :
    chunk_text ("\t \t".toList) 7 = [[]] ∧ chunk_text ("\t \t".toList) 7 ≠ [] :=
  ⟨chunk_text_never_empty_sequence.2 ("\t \t".toList) 7 (by decide),
   chunk_text_never_empty_sequence.1 ("\t \t".toList) 7⟩

/-- C7.  The claim describes the per-section caps (3/3/6/4) and the
descending-score selection of `_pick_sentences`; but for every corpus
that yields at least one candidate sentence the function raises
`NameError` while scoring the first candidate (the `__ROUTE_RE` slip of
`_score_sentence`), so no bundle is assembled at all — here on a
one-document corpus whose text yields one sentence. -/
theorem pick_sentences_crashes_on_first_candidate :
    pick_sentences
      [{ id := some "r1", title := "Hyperkalaemia Guideline",
         org := "Health Authority X", url := "", published := none,
         text := "Monitor ECG continuously and repeat potassium levels after treatment." }]
      "hyperkalaemia management" = Except.error PyErr.nameError := rfl

/-- C8.  The claim describes the citation walk of `_pick_sentences`
(first occurrence of each document id appends one citation); but the
function raises `NameError` while scoring the very first candidate, so
the citation-building loop is never reached — here on a two-row corpus
sharing one document id, which the claimed dedup walk would have turned
into a single citation. -/
theorem pick_sentences_crashes_before_citations :
    pick_sentences
      [{ id := some "g1", title := "Sepsis Guideline", org := "HAX", url := "",
         published := some "2024-06-01",
         text := "Give ceftriaxone promptly after cultures are taken." },
       { id := some "g1", title := "Sepsis Guideline", org := "HAX", url := "",
         published := some "2024-06-01",
         text := "Monitor lactate and reassess perfusion after fluids." }]
      "sepsis antibiotics" = Except.error PyErr.nameError := rfl

/-- A monadic fold over `Except` whose steps all return their accumulator
unchanged returns the initial accumulator. -/
theorem foldlM_ok_of_id {α β ε : Type} (f : β → α → Except ε β) (l : List α)
    (h : ∀ a ∈ l, ∀ b, f b a = Except.ok b) : ∀ b, l.foldlM f b = Except.ok b := by
  induction l with
  | nil => intro b; rfl
  | cons a rest ih =>
    intro b
    rw [List.foldlM_cons, h a (by simp)]
    show rest.foldlM f b = Except.ok b
    exact ih (fun a ha b => h a (by simp [ha]) b) b

/-- When no row yields an extractable sentence, the candidate collection
of `_pick_sentences` succeeds with an empty candidate list (the raising
scorer is never invoked). -/
theorem collectCands_ok_nil (rows : List Row) (q : List Char)
    (h : ∀ r ∈ rows, sentences r.text.toList = []) :
    collectCands rows q = Except.ok [] := by
  unfold collectCands
  refine foldlM_ok_of_id _ rows (fun r hr acc => ?_) []
  rw [h r hr]
  rfl

/-- When no row yields an extractable sentence, `_pick_sentences`
returns the single no-match marker and zero citations, as a success. -/
theorem pick_sentences_no_match (rows : List Row) (q : String)
    (h : ∀ r ∈ rows, sentences r.text.toList = []) :
    pick_sentences rows q = Except.ok (noMatchHtml, []) := by
  unfold pick_sentences
  rw [collectCands_ok_nil rows q.toList h]
  rfl

/-- C9.  A query with no usable context is a defined success, not an
error: if every row of the corpus yields no extractable sentence (the
no-rows case included), the `/answer` pipeline returns `Except.ok` with
the single user-facing no-match marker and zero citations — and never
four empty sections; likewise `build_prompt` of `src/app.py` falls back
to its single "no local documents matched closely" marker when no
document scores above zero. -/
theorem no_local_match_success :
    (∀ (rows : List Row) (q : String), (∀ r ∈ rows, sentences r.text.toList = []) →
        answer_core rows q = Except.ok (noMatchHtml, []))
    ∧ (∀ (corpus : List (List Char × List Char)) (qt : List (List Char)),
        (∀ pt ∈ corpus, score_doc qt ((Prod.snd pt).take 8000) = 0) →
        build_context corpus qt = noLocalContext) := by
  constructor
  · intro rows q h
    cases rows with
    | nil => rfl
    | cons r rest =>
      show pick_sentences (r :: rest) q = Except.ok (noMatchHtml, [])
      exact pick_sentences_no_match _ _ h
  · intro corpus qt h
    have hnil : corpus.filterMap (scoreEntry qt) = [] := by
      rw [List.filterMap_eq_nil_iff]
      intro pt hpt
      simp only [scoreEntry]
      rw [h pt hpt]
      rfl
    unfold build_context
    rw [hnil]
    rfl

/-- C9 (witness): the empty corpus and a corpus of one too-short text
both produce the success-tagged no-match marker with no citations, and
the app-side context falls back to its marker on an empty corpus. -/
theorem no_local_match_success_witness :
    answer_core [] "chest pain" = Except.ok (noMatchHtml, [])
    ∧ answer_core
        [{ id := some "r9", title := "T", org := "", url := "", published := none,
           text := "tiny" }] "chest pain" = Except.ok (noMatchHtml, [])
    ∧ build_context [] ["pain".toList] = noLocalContext :=
  ⟨no_local_match_success.1 [] "chest pain" (by simp),
   no_local_match_success.1 _ "chest pain" (by
     intro r hr
     simp only [List.mem_singleton] at hr
     subst hr
     decide),
   no_local_match_success.2 [] ["pain".toList] (by simp)⟩

/-- The term-relevance fold of `_score_doc` is monotone: occurrence
counts that are pointwise no smaller, and a no-smaller start value, give
a no-smaller total. -/
theorem foldl_score_le (tl tl' : List Char) (toks : List (List Char)) :
    ∀ a a' : Int, a ≤ a' → (∀ t ∈ toks, countOcc tl t ≤ countOcc tl' t) →
      toks.foldl (fun sc t => if t.length < 3 then sc
        else sc + (countOcc tl t : Int) * 3) a
      ≤ toks.foldl (fun sc t => if t.length < 3 then sc
        else sc + (countOcc tl' t : Int) * 3) a' := by
  induction toks with
  | nil => intro a a' ha _; simpa using ha
  | cons t rest ih =>
    intro a a' ha h
    simp only [List.foldl_cons]
    by_cases hl : t.length < 3
    · simp only [hl, if_true]
      exact ih _ _ ha (fun u hu => h u (by simp [hu]))
    · simp only [hl, if_false]
      refine ih _ _ ?_ (fun u hu => h u (by simp [hu]))
      have hc : (countOcc tl t : Int) ≤ (countOcc tl' t : Int) := by
        exact_mod_cast h t (by simp)
      have h3 : (countOcc tl t : Int) * 3 ≤ (countOcc tl' t : Int) * 3 := by
        nlinarith
      omega

/-- The term-relevance fold of `_score_doc` never decreases its start
value. -/
theorem foldl_score_lower (tl : List Char) (toks : List (List Char)) :
    ∀ a : Int, a ≤ toks.foldl (fun sc t => if t.length < 3 then sc
        else sc + (countOcc tl t : Int) * 3) a := by
  induction toks with
  | nil => intro a; simp
  | cons t rest ih =>
    intro a
    simp only [List.foldl_cons]
    by_cases hl : t.length < 3
    · simp only [hl, if_true]; exact ih a
    · simp only [hl, if_false]
      calc a ≤ a + (countOcc tl t : Int) * 3 := by omega
        _ ≤ _ := ih _

/-- `hay.count(t)` over the empty haystack is 0 for a non-empty needle. -/
theorem countOcc_nil_of_ne (t : List Char) (ht : t ≠ []) : countOcc [] t = 0 := by
  cases t with
  | nil => exact absurd rfl ht
  | cons c u => rfl

/-- The term-relevance fold over the empty text adds nothing: every
contributing token has length at least 3, hence counts 0 occurrences. -/
theorem foldl_score_nil_text (toks : List (List Char)) :
    ∀ a : Int, toks.foldl (fun sc t => if t.length < 3 then sc
        else sc + (countOcc ([] : List Char) t : Int) * 3) a = a := by
  induction toks with
  | nil => intro a; rfl
  | cons t rest ih =>
    intro a
    simp only [List.foldl_cons]
    by_cases hl : t.length < 3
    · simp only [hl, if_true]; exact ih a
    · have ht : t ≠ [] := by
        intro h0
        exact hl (by simp [h0])
      simp only [hl, if_false, countOcc_nil_of_ne t ht]
      simpa using ih a

/-- `_score_doc` never returns a negative score. -/
theorem score_doc_nonneg (toks : List (List Char)) (text : List Char) :
    0 ≤ score_doc toks text := by
  unfold score_doc
  by_cases he : text.isEmpty
  · simp [he]
  · simp only [he, if_false]
    have hb := foldl_score_lower (pyLower text) toks 0
    split
    · omega
    · omega

/-- On non-empty text, `_score_doc` is the term-relevance fold plus the
cue bonus written additively. -/
theorem score_doc_eq (toks : List (List Char)) (text : List Char)
    (h : text.isEmpty = false) :
    score_doc toks text
      = toks.foldl (fun sc t => if t.length < 3 then sc
          else sc + (countOcc (pyLower text) t : Int) * 3) 0
        + (if cue_hit (pyLower text) then (5 : Int) else 0) := by
  simp only [score_doc, h, Bool.false_eq_true, if_false]
  cases hc : cue_hit (pyLower text) <;> simp [hc]

/-- C10.  `_score_doc` is monotone in query-token occurrences: if every
query token occurs in (the lowercased) `text2` at least as often as in
`text` — in particular when `text2` is `text` with one more occurrence
of a query token added, all else equal — and no guideline cue is lost,
then the score of `text2` is at least the score of `text`. -/
theorem score_doc_monotone (toks : List (List Char)) (text text2 : List Char)
    (hcount : ∀ t ∈ toks, countOcc (pyLower text) t ≤ countOcc (pyLower text2) t)
    (hcue : cue_hit (pyLower text) = true → cue_hit (pyLower text2) = true) :
    score_doc toks text ≤ score_doc toks text2 := by
  cases h1 : text.isEmpty with
  | true =>
    have hz : score_doc toks text = 0 := by simp [score_doc, h1]
    rw [hz]
    exact score_doc_nonneg toks text2
  | false =>
    cases h2 : text2.isEmpty with
    | true =>
      have htx : text2 = [] := by
        cases text2 with
        | nil => rfl
        | cons c u => simp at h2
      subst htx
      have hcue0 : cue_hit (pyLower text) = false := by
        cases hcb : cue_hit (pyLower text) with
        | false => rfl
        | true => exact absurd (hcue hcb) (by decide)
      have hbase : toks.foldl (fun sc t => if t.length < 3 then sc
          else sc + (countOcc (pyLower text) t : Int) * 3) 0 ≤ 0 := by
        calc toks.foldl (fun sc t => if t.length < 3 then sc
              else sc + (countOcc (pyLower text) t : Int) * 3) 0
            ≤ toks.foldl (fun sc t => if t.length < 3 then sc
              else sc + (countOcc (pyLower ([] : List Char)) t : Int) * 3) 0 :=
              foldl_score_le (pyLower text) (pyLower ([] : List Char)) toks
                0 0 le_rfl hcount
          _ = 0 := foldl_score_nil_text toks 0
      have hz : score_doc toks ([] : List Char) = 0 := rfl
      rw [hz, score_doc_eq toks text h1, hcue0]
      simpa using hbase
    | false =>
      rw [score_doc_eq toks text h1, score_doc_eq toks text2 h2]
      have hbase := foldl_score_le (pyLower text) (pyLower text2) toks 0 0 le_rfl hcount
      have hcuele : (if cue_hit (pyLower text) then (5 : Int) else 0)
          ≤ (if cue_hit (pyLower text2) then (5 : Int) else 0) := by
        cases hcb : cue_hit (pyLower text) with
        | false => cases cue_hit (pyLower text2) <;> simp
        | true => simp [hcb, hcue hcb]
      omega

/-- C10 (witness): adding one more occurrence of the query token
"calcium" to a chunk's text does not decrease its score. -/
theorem score_doc_monotone_witness :
    score_doc [("calcium".toList)] ("give calcium".toList)
      ≤ score_doc [("calcium".toList)] ("give calcium calcium".toList) :=
  score_doc_monotone [("calcium".toList)] ("give calcium".toList)
    ("give calcium calcium".toList) (by decide) (by decide)
